import Mathlib

/-
Shallow embedding of src/main.c: a FreeRTOS producer / consumer / supervisor
triad on an ESP32.  The generator task pushes sequential integers into a
bounded queue, the receiver task pops them and runs an escalation state
machine on consecutive receive timeouts, and the supervisor task periodically
checks heartbeat staleness, recreates dead tasks and restarts the whole
device after five receiver recreations.  Log output (printf), the hardware
watchdog subscription calls (esp_task_wdt_add / esp_task_wdt_reset) and the
memory diagnostics are side-effect free with respect to the shared state and
are not modelled.
-/

/-- Configuration constant QUEUE_LENGTH from src/main.c line 14. -/
def QUEUE_LENGTH : Nat := 10

/-- Configuration constant SUPERVISOR_PERIOD_MS from src/main.c line 29. -/
def SUPERVISOR_PERIOD_MS : Nat := 3000

/-- Configuration constant MAX_WARNINGS from src/main.c line 30. -/
def MAX_WARNINGS : Nat := 3

/-- Configuration constant MAX_RECOVERIES from src/main.c line 31. -/
def MAX_RECOVERIES : Nat := 5

/-- Configuration constant MAX_SHUTDOWNS from src/main.c line 32. -/
def MAX_SHUTDOWNS : Nat := 10

/-- The event group status_flags (src/main.c line 55) with its five named
bits FLAG_GENERATOR_OK .. FLAG_RECEIVER_SHUTDOWN (lines 35-39), modelled as
a record of booleans; each xEventGroupSetBits / xEventGroupClearBits call
with a constant mask becomes a record update of the named bits. -/
structure EventFlags where
  generator_ok : Bool
  receiver_ok : Bool
  receiver_warning : Bool
  receiver_recovery : Bool
  receiver_shutdown : Bool
  deriving Repr, DecidableEq

/-- The FreeRTOS queue data_queue (src/main.c line 54): a bounded FIFO of
32-bit integers, created with capacity QUEUE_LENGTH (line 300). -/
structure Queue where
  capacity : Nat
  items : List Int
  deriving Repr, DecidableEq

/-- xQueueSend with a zero-tick timeout (src/main.c line 76,
QUEUE_SEND_TIMEOUT_MS = 0): enqueue at the back if there is room and answer
pdTRUE, otherwise answer pdFALSE leaving the queue unchanged. -/
def xQueueSend (q : Queue) (v : Int) : Bool × Queue :=
  if q.items.length < q.capacity then (true, ⟨q.capacity, q.items ++ [v]⟩)
  else (false, q)

/-- xQueueReset (src/main.c line 153): empty the queue. -/
def xQueueReset (q : Queue) : Queue := ⟨q.capacity, []⟩

/-- The local variables of one task_data_receiver instance
(src/main.c lines 102-105) plus whether the task is still running
(it deletes itself at escalation level 4, line 171). -/
structure ReceiverState where
  timeout_count : Nat
  warning_count : Nat
  recovery_count : Nat
  shutdown_count : Nat
  alive : Bool
  deriving Repr, DecidableEq

/-- A freshly created task_data_receiver instance: all counters start at 0
(src/main.c lines 102-105). -/
def freshReceiver : ReceiverState := ⟨0, 0, 0, 0, true⟩

/-- Outcome of one xQueueReceive attempt with its malloc prelude in the
receiver loop body (src/main.c lines 111-120): the malloc may fail
(line 113), otherwise the receive either yields a value or times out. -/
inductive RecvOutcome where
  | success (v : Int)
  | timeout
  | allocFailure
  deriving Repr, DecidableEq

/-- The whole shared state of the program: the event flags, the queue, the
live receiver instance, the generator's local sequential_value (line 68),
both heartbeats (lines 60-61), the supervisor-local receiver_restart_count
(line 189), the task-handle globals (lines 56-57, abstracted to whether a
handle exists) and whether esp_restart has been invoked (halted). -/
structure SysState where
  flags : EventFlags
  data_queue : Queue
  receiver : ReceiverState
  sequential_value : Int
  generator_heartbeat : Nat
  receiver_heartbeat : Nat
  receiver_restart_count : Nat
  generator_handle_exists : Bool
  receiver_handle_exists : Bool
  halted : Bool
  deriving Repr, DecidableEq

/-- One iteration of the task_data_generator loop body
(src/main.c lines 72-94): increment sequential_value, try a non-blocking
send; on success set FLAG_GENERATOR_OK and stamp generator_heartbeat with
the current tick count; on failure (queue full) only log and continue. -/
def task_generator_iteration (s : SysState) (now : Nat) : SysState :=
  let v := s.sequential_value + 1
  let r := xQueueSend s.data_queue v
  if r.1 then
    { s with sequential_value := v
             data_queue := r.2
             flags := { s.flags with generator_ok := true }
             generator_heartbeat := now }
  else
    { s with sequential_value := v }

/-- One iteration of the task_data_receiver loop body
(src/main.c lines 109-184).  On allocation failure the iteration aborts
early touching nothing (lines 113-117).  On a successful receive the head
item is dequeued, timeout_count / warning_count / recovery_count are reset
(shutdown_count is not), FLAG_RECEIVER_OK is set, the warning / recovery /
shutdown flags are cleared and receiver_heartbeat is stamped
(lines 120-134).  On timeout the counter increments and the escalated
reaction of lines 142-173 runs; at level 4 the task sets
FLAG_RECEIVER_SHUTDOWN and deletes itself. -/
def task_receiver_iteration (s : SysState) (now : Nat) (o : RecvOutcome) :
    SysState :=
  match o with
  | .allocFailure => s
  | .success _ =>
      { s with receiver := { s.receiver with timeout_count := 0
                                             warning_count := 0
                                             recovery_count := 0 }
               data_queue := ⟨s.data_queue.capacity, s.data_queue.items.tail⟩
               flags := { s.flags with receiver_ok := true
                                       receiver_warning := false
                                       receiver_recovery := false
                                       receiver_shutdown := false }
               receiver_heartbeat := now }
  | .timeout =>
      let tc := s.receiver.timeout_count + 1
      if 1 ≤ tc ∧ tc < MAX_WARNINGS then
        { s with receiver := { s.receiver with
                                 timeout_count := tc
                                 warning_count := s.receiver.warning_count + 1 }
                 flags := { s.flags with receiver_warning := true } }
      else if MAX_WARNINGS ≤ tc ∧ tc < MAX_RECOVERIES then
        { s with receiver := { s.receiver with
                                 timeout_count := tc
                                 recovery_count := s.receiver.recovery_count + 1 }
                 data_queue := xQueueReset s.data_queue
                 flags := { s.flags with receiver_recovery := true
                                         receiver_warning := false } }
      else if MAX_RECOVERIES ≤ tc ∧ tc < MAX_SHUTDOWNS then
        { s with receiver := { s.receiver with
                                 timeout_count := tc
                                 shutdown_count := s.receiver.shutdown_count + 1 }
                 flags := { s.flags with receiver_shutdown := true
                                         receiver_warning := false
                                         receiver_recovery := false } }
      else
        { s with receiver := { s.receiver with timeout_count := tc
                                               alive := false }
                 flags := { s.flags with receiver_shutdown := true } }

/-- The staleness test `now - heartbeat > pdMS_TO_TICKS(2 * SUPERVISOR_PERIOD_MS)`
(src/main.c lines 232 and 265), in milliseconds; tick subtraction on the
unsigned counter is modelled by truncated Nat subtraction. -/
def heartbeatStale (hb now : Nat) : Bool :=
  decide (2 * SUPERVISOR_PERIOD_MS < now - hb)

/-- The receiver liveness condition of src/main.c line 231: no receiver task
handle exists, or the receiver heartbeat is stale. -/
def receiver_needs_restart (s : SysState) (now : Nat) : Bool :=
  !s.receiver_handle_exists || heartbeatStale s.receiver_heartbeat now

/-- One cycle of the task_supervisor loop body after its period delay
(src/main.c lines 194-290).  The status snapshot and memory report
(lines 197-227, 286-289) only log.  If the receiver liveness condition
fires (line 231): increment receiver_restart_count, delete any existing
receiver handle, create a fresh receiver task, re-stamp receiver_heartbeat
and clear the warning / recovery / shutdown flags (lines 234-253); then if
the count reached 5, esp_restart (lines 256-261, modelled as halted).
Afterwards, if the generator heartbeat is stale, the generator task is
deleted and recreated (a fresh instance restarts sequential_value at 0) and
its heartbeat re-stamped (lines 265-284). -/
def task_supervisor_cycle (s : SysState) (now : Nat) : SysState :=
  let s1 :=
    if receiver_needs_restart s now then
      let count := s.receiver_restart_count + 1
      let s2 : SysState :=
        { s with receiver := freshReceiver
                 receiver_handle_exists := true
                 receiver_heartbeat := now
                 flags := { s.flags with receiver_warning := false
                                         receiver_recovery := false
                                         receiver_shutdown := false }
                 receiver_restart_count := count }
      if 5 ≤ count then { s2 with halted := true } else s2
    else s
  if s1.halted then s1
  else if heartbeatStale s1.generator_heartbeat now then
    { s1 with generator_handle_exists := true
              generator_heartbeat := now
              sequential_value := 0 }
  else s1

/-- The state right after app_main (src/main.c lines 294-369) succeeds: the
queue is created empty with capacity QUEUE_LENGTH, the event group starts
with all bits clear, both tasks are created (handles exist, fresh receiver,
sequential_value 0), heartbeats are 0 and the supervisor's restart count
starts at 0. -/
def initState : SysState :=
  { flags := ⟨false, false, false, false, false⟩
    data_queue := ⟨QUEUE_LENGTH, []⟩
    receiver := freshReceiver
    sequential_value := 0
    generator_heartbeat := 0
    receiver_heartbeat := 0
    receiver_restart_count := 0
    generator_handle_exists := true
    receiver_handle_exists := true
    halted := false }

/-- Interleaving semantics of the three concurrent tasks: each step is one
loop-body iteration of one task, taken at some tick count `now`.  A receive
succeeds exactly when the queue is non-empty at that point (xQueueReceive
returns the head immediately), and times out only when the queue is empty
when the 2000 ms window expires.  No task runs once esp_restart has been
invoked. -/
inductive Step : SysState → SysState → Prop where
  | generator (s : SysState) (now : Nat) :
      s.halted = false →
      Step s (task_generator_iteration s now)
  | receiver_success (s : SysState) (now : Nat) (v : Int) (rest : List Int) :
      s.halted = false → s.receiver.alive = true →
      s.data_queue.items = v :: rest →
      Step s (task_receiver_iteration s now (.success v))
  | receiver_timeout (s : SysState) (now : Nat) :
      s.halted = false → s.receiver.alive = true →
      s.data_queue.items = [] →
      Step s (task_receiver_iteration s now .timeout)
  | receiver_alloc_failure (s : SysState) (now : Nat) :
      s.halted = false → s.receiver.alive = true →
      Step s (task_receiver_iteration s now .allocFailure)
  | supervisor (s : SysState) (now : Nat) :
      s.halted = false →
      Step s (task_supervisor_cycle s now)

/-- The states the program can reach from a successful startup. -/
inductive Reachable : SysState → Prop where
  | init : Reachable initState
  | step {s s' : SysState} : Reachable s → Step s s' → Reachable s'

/-- One receiver loop iteration, a no-op once the task has deleted itself
(vTaskDelete(NULL) at src/main.c line 171 ends the instance's lifecycle). -/
def receiver_iter_guarded (s : SysState) (now : Nat) (o : RecvOutcome) :
    SysState :=
  if s.receiver.alive then task_receiver_iteration s now o else s

/-- Feed n consecutive receive timeouts to the receiver instance of state s
(further timeouts are no-ops once the task has exited). -/
def runTimeouts (s : SysState) : Nat → SysState
  | 0 => s
  | n + 1 => receiver_iter_guarded (runTimeouts s n) 0 RecvOutcome.timeout

/-- Sequence of xQueueSend calls with no consumption in between
(the task_data_generator send path, src/main.c line 76). -/
def sendAll (q : Queue) : List Int → Queue
  | [] => q
  | v :: vs => sendAll (xQueueSend q v).2 vs

/-- Outcome of running app_main (src/main.c lines 294-369) with the given
results for the three fallible initialization steps: whether esp_restart
was invoked during startup, whether the watchdog-failure warning was
logged, and whether the three tasks were created. -/
structure InitOutcome where
  restarted : Bool
  wdt_warning : Bool
  tasks_created : Bool
  deriving Repr, DecidableEq

/-- app_main (src/main.c lines 294-369): if xQueueCreate fails, esp_restart
(lines 301-305); else if xEventGroupCreate fails, esp_restart
(lines 310-314); else esp_task_wdt_init is attempted and on failure only a
warning is logged (lines 324-329), after which the three tasks are created
(lines 334-365). -/
def app_main (queue_ok eventgroup_ok wdt_ok : Bool) : InitOutcome :=
  if queue_ok = false then ⟨true, false, false⟩
  else if eventgroup_ok = false then ⟨true, false, false⟩
  else ⟨false, !wdt_ok, true⟩

/-- Number of asserted flags among ReceiverWarning, ReceiverRecovery and
ReceiverShutdown. -/
def wrsCount (f : EventFlags) : Nat :=
  f.receiver_warning.toNat + f.receiver_recovery.toNat + f.receiver_shutdown.toNat

/-- Number of asserted flags among all four receiver flags ReceiverOk,
ReceiverWarning, ReceiverRecovery and ReceiverShutdown. -/
def receiverFlagCount (f : EventFlags) : Nat :=
  f.receiver_ok.toNat + wrsCount f

/-- Inductive strengthening for the flag-exclusion invariant: among the
three escalation flags at most one is set, and the set one is consistent
with the receiver's consecutive-timeout counter. -/
def InvC2 (s : SysState) : Prop :=
  wrsCount s.flags ≤ 1 ∧
  (s.receiver.timeout_count < 3 → s.flags.receiver_recovery = false) ∧
  (s.receiver.timeout_count < 5 → s.flags.receiver_shutdown = false) ∧
  (5 ≤ s.receiver.timeout_count →
    s.flags.receiver_warning = false ∧ s.flags.receiver_recovery = false)

/-- State after the generator sends the value 1 at startup. -/
def c2s1 : SysState := task_generator_iteration initState 0

/-- State after the receiver then successfully receives that value. -/
def c2s2 : SysState := task_receiver_iteration c2s1 0 (.success 1)

/-- State after the receiver then suffers one receive timeout. -/
def c2_state : SysState := task_receiver_iteration c2s2 0 .timeout

/-- State after a first supervisor cycle at tick 6001 with the receiver
heartbeat stale: first recreation. -/
def c3s1 : SysState := task_supervisor_cycle initState 6001

/-- State after a second stale-heartbeat supervisor cycle: second
recreation. -/
def c3s2 : SysState := task_supervisor_cycle c3s1 12002

/-- State after a third stale-heartbeat supervisor cycle: third
recreation. -/
def c3s3 : SysState := task_supervisor_cycle c3s2 18003

/-- State after a fourth stale-heartbeat supervisor cycle: fourth
recreation. -/
def c3s4 : SysState := task_supervisor_cycle c3s3 24004

/-- State after a fifth stale-heartbeat supervisor cycle: fifth recreation,
which also calls esp_restart within the same cycle. -/
def c3s5 : SysState := task_supervisor_cycle c3s4 30005

/-- The generator line of the supervisor's status snapshot (src/main.c
lines 202-206): the generator is reported OK exactly when
FLAG_GENERATOR_OK is set. -/
def supervisor_reports_generator_ok (f : EventFlags) : Bool := f.generator_ok

/-- Helper: once the receiver task has deleted itself, its loop body never
runs again. -/
theorem receiver_iter_guarded_dead (s : SysState) (now : Nat) (o : RecvOutcome)
    (h : s.receiver.alive = false) : receiver_iter_guarded s now o = s := by
  simp [receiver_iter_guarded, h]

/-- Claim C1: on a fresh Receiver instance the escalation level is a pure
function of the consecutive-timeout count C.  For C in [1,2] the iteration
only sets ReceiverWarning; for C in [3,4] the channel is cleared,
ReceiverRecovery is set and ReceiverWarning cleared; for C in [5,9]
ReceiverShutdown is set, ReceiverWarning and ReceiverRecovery cleared and
the task keeps running; for C at least 10 ReceiverShutdown is set, the task
exits permanently and processes no further input. -/
theorem claim_C1 (s : SysState) (h : s.receiver = freshReceiver) :
    (∀ n, 1 ≤ n → n ≤ 2 →
       runTimeouts s n =
         { s with flags := { s.flags with receiver_warning := true }
                  receiver := ⟨n, n, 0, 0, true⟩ }) ∧
    (∀ n, 3 ≤ n → n ≤ 4 →
       runTimeouts s n =
         { s with flags := { s.flags with receiver_warning := false
                                          receiver_recovery := true }
                  data_queue := ⟨s.data_queue.capacity, []⟩
                  receiver := ⟨n, 2, n - 2, 0, true⟩ }) ∧
    (∀ n, 5 ≤ n → n ≤ 9 →
       runTimeouts s n =
         { s with flags := { s.flags with receiver_warning := false
                                          receiver_recovery := false
                                          receiver_shutdown := true }
                  data_queue := ⟨s.data_queue.capacity, []⟩
                  receiver := ⟨n, 2, 2, n - 4, true⟩ }) ∧
    (∀ n, 10 ≤ n →
       runTimeouts s n =
         { s with flags := { s.flags with receiver_warning := false
                                          receiver_recovery := false
                                          receiver_shutdown := true }
                  data_queue := ⟨s.data_queue.capacity, []⟩
                  receiver := ⟨10, 2, 2, 5, false⟩ }) ∧
    (∀ n now o, 10 ≤ n →
       receiver_iter_guarded (runTimeouts s n) now o = runTimeouts s n) := by
  have h10 : runTimeouts s 10 =
      { s with flags := { s.flags with receiver_warning := false
                                       receiver_recovery := false
                                       receiver_shutdown := true }
               data_queue := ⟨s.data_queue.capacity, []⟩
               receiver := ⟨10, 2, 2, 5, false⟩ } := by
    simp [runTimeouts, receiver_iter_guarded, task_receiver_iteration, h,
          freshReceiver, MAX_WARNINGS, MAX_RECOVERIES, MAX_SHUTDOWNS, xQueueReset]
  have aux : ∀ k, runTimeouts s (10 + k) = runTimeouts s 10 := by
    intro k
    induction k with
    | zero => rfl
    | succ k ih =>
        show receiver_iter_guarded (runTimeouts s (10 + k)) 0 RecvOutcome.timeout
              = runTimeouts s 10
        rw [ih]
        exact receiver_iter_guarded_dead _ _ _ (by rw [h10])
  refine ⟨?_, ?_, ?_, ?_, ?_⟩
  · intro n h1 h2
    interval_cases n <;>
      simp [runTimeouts, receiver_iter_guarded, task_receiver_iteration, h,
            freshReceiver, MAX_WARNINGS, MAX_RECOVERIES, MAX_SHUTDOWNS]
  · intro n h1 h2
    interval_cases n <;>
      simp [runTimeouts, receiver_iter_guarded, task_receiver_iteration, h,
            freshReceiver, MAX_WARNINGS, MAX_RECOVERIES, MAX_SHUTDOWNS, xQueueReset]
  · intro n h1 h2
    interval_cases n <;>
      simp [runTimeouts, receiver_iter_guarded, task_receiver_iteration, h,
            freshReceiver, MAX_WARNINGS, MAX_RECOVERIES, MAX_SHUTDOWNS, xQueueReset]
  · intro n hn
    obtain ⟨k, rfl⟩ := Nat.exists_eq_add_of_le hn
    rw [aux k, h10]
  · intro n now o hn
    obtain ⟨k, rfl⟩ := Nat.exists_eq_add_of_le hn
    rw [aux k]
    exact receiver_iter_guarded_dead _ _ _ (by rw [h10])

/-- Witness for claim C1, at the startup state and counts 1, 3, 5 and 10. -/
theorem claim_C1_witness :
    runTimeouts initState 1 =
      { initState with
          flags := { initState.flags with receiver_warning := true }
          receiver := ⟨1, 1, 0, 0, true⟩ } ∧
    runTimeouts initState 3 =
      { initState with
          flags := { initState.flags with receiver_warning := false
                                          receiver_recovery := true }
          data_queue := ⟨initState.data_queue.capacity, []⟩
          receiver := ⟨3, 2, 1, 0, true⟩ } ∧
    runTimeouts initState 5 =
      { initState with
          flags := { initState.flags with receiver_warning := false
                                          receiver_recovery := false
                                          receiver_shutdown := true }
          data_queue := ⟨initState.data_queue.capacity, []⟩
          receiver := ⟨5, 2, 2, 1, true⟩ } ∧
    runTimeouts initState 12 =
      { initState with
          flags := { initState.flags with receiver_warning := false
                                          receiver_recovery := false
                                          receiver_shutdown := true }
          data_queue := ⟨initState.data_queue.capacity, []⟩
          receiver := ⟨10, 2, 2, 5, false⟩ } :=
  ⟨(claim_C1 initState rfl).1 1 (by decide) (by decide),
   (claim_C1 initState rfl).2.1 3 (by decide) (by decide),
   (claim_C1 initState rfl).2.2.1 5 (by decide) (by decide),
   (claim_C1 initState rfl).2.2.2.1 12 (by decide)⟩

/-- Claim C4: a single successful receive, at any escalation level of a
still-running Receiver (counter value between 0 and 9), resets the
consecutive-timeout counter to 0 and leaves the receiver flag state as
ReceiverOk exclusively: ReceiverWarning, ReceiverRecovery and
ReceiverShutdown are all cleared. -/
theorem claim_C4 (s : SysState) (now : Nat) (v : Int)
    (halive : s.receiver.alive = true)
    (hc : s.receiver.timeout_count ≤ 9) :
    (task_receiver_iteration s now (.success v)).receiver.timeout_count = 0 ∧
    (task_receiver_iteration s now (.success v)).flags.receiver_ok = true ∧
    (task_receiver_iteration s now (.success v)).flags.receiver_warning = false ∧
    (task_receiver_iteration s now (.success v)).flags.receiver_recovery = false ∧
    (task_receiver_iteration s now (.success v)).flags.receiver_shutdown = false := by
  simp [task_receiver_iteration]

/-- Witness for claim C4: a successful receive after 7 straight timeouts
(escalation level CriticalShutdown) re-enters Normal with flags at
ReceiverOk only. -/
theorem claim_C4_witness :
    (task_receiver_iteration (runTimeouts initState 7) 0 (.success 41)).receiver.timeout_count = 0 ∧
    (task_receiver_iteration (runTimeouts initState 7) 0 (.success 41)).flags.receiver_ok = true ∧
    (task_receiver_iteration (runTimeouts initState 7) 0 (.success 41)).flags.receiver_warning = false ∧
    (task_receiver_iteration (runTimeouts initState 7) 0 (.success 41)).flags.receiver_recovery = false ∧
    (task_receiver_iteration (runTimeouts initState 7) 0 (.success 41)).flags.receiver_shutdown = false :=
  claim_C4 (runTimeouts initState 7) 0 41 (by decide) (by decide)

/-- Helper: a send never changes the queue's capacity. -/
theorem xQueueSend_capacity (q : Queue) (v : Int) :
    ((xQueueSend q v).2).capacity = q.capacity := by
  unfold xQueueSend
  split <;> rfl

/-- Helper: a send never pushes the length above the capacity. -/
theorem xQueueSend_length_le (q : Queue) (v : Int)
    (h : q.items.length ≤ q.capacity) :
    ((xQueueSend q v).2).items.length ≤ q.capacity := by
  unfold xQueueSend
  split
  · simpa using by omega
  · exact h

/-- Helper: any sequence of sends keeps the length within the capacity. -/
theorem sendAll_length_le (vs : List Int) :
    ∀ q : Queue, q.items.length ≤ q.capacity →
      (sendAll q vs).items.length ≤ q.capacity := by
  induction vs with
  | nil => intro q h; exact h
  | cons v vs ih =>
      intro q h
      show (sendAll (xQueueSend q v).2 vs).items.length ≤ q.capacity
      have h1 := ih ((xQueueSend q v).2)
      rw [xQueueSend_capacity] at h1
      exact h1 (xQueueSend_length_le q v h)

/-- Claim C6: for every sequence of sends the bounded channel holds at most
Capacity = 10 items, and a send to a full channel returns failure leaving
the content unchanged; with capacity 2 and sends 1, 2, 3 without
consumption, the first two sends return true, the third returns false, and
the channel then contains exactly [1, 2] in order. -/
theorem claim_C6 :
    (∀ (vs : List Int) (q : Queue), q.items.length ≤ q.capacity →
       (sendAll q vs).items.length ≤ q.capacity) ∧
    (∀ vs : List Int,
       (sendAll ⟨QUEUE_LENGTH, []⟩ vs).items.length ≤ QUEUE_LENGTH) ∧
    (∀ (q : Queue) (v : Int), q.items.length = q.capacity →
       xQueueSend q v = (false, q)) ∧
    xQueueSend ⟨2, []⟩ 1 = (true, ⟨2, [1]⟩) ∧
    xQueueSend ⟨2, [1]⟩ 2 = (true, ⟨2, [1, 2]⟩) ∧
    xQueueSend ⟨2, [1, 2]⟩ 3 = (false, ⟨2, [1, 2]⟩) ∧
    (sendAll ⟨2, []⟩ [1, 2, 3]).items = [1, 2] := by
  refine ⟨?_, ?_, ?_, by decide, by decide, by decide, by decide⟩
  · exact fun vs q h => sendAll_length_le vs q h
  · intro vs
    exact sendAll_length_le vs ⟨QUEUE_LENGTH, []⟩ (by decide)
  · intro q v h
    unfold xQueueSend
    rw [h]
    simp

/-- Witness for claim C6, at a concrete queue of capacity 10 filled by
twelve sends, and at a concrete full queue of capacity 2. -/
theorem claim_C6_witness :
    (sendAll ⟨10, [0]⟩ [1, 2, 3, 4, 5, 6, 7, 8, 9, 10, 11, 12]).items.length ≤ 10 ∧
    xQueueSend ⟨2, [7, 8]⟩ 9 = (false, ⟨2, [7, 8]⟩) :=
  ⟨claim_C6.1 [1, 2, 3, 4, 5, 6, 7, 8, 9, 10, 11, 12] ⟨10, [0]⟩ (by decide),
   claim_C6.2.2.1 ⟨2, [7, 8]⟩ 9 (by decide)⟩

/-- Counterexample to claim C7: when the watchdog configuration fails (and
the queue and event group are created), the device does not restart during
startup; the code only logs a warning and goes on to create the tasks. -/
theorem claim_C7_counterexample :
    (app_main true true false).restarted = false ∧
    (app_main true true false).wdt_warning = true ∧
    (app_main true true false).tasks_created = true := by
  decide

/-- Claim C7 as amended: at initialization, a failure to create the channel
or a failure to create the health signal restarts the whole device during
startup; a failure to configure the watchdog only logs a warning and
startup continues, creating the tasks. -/
theorem claim_C7 :
    (∀ eventgroup_ok wdt_ok : Bool,
       (app_main false eventgroup_ok wdt_ok).restarted = true) ∧
    (∀ wdt_ok : Bool, (app_main true false wdt_ok).restarted = true) ∧
    (∀ wdt_ok : Bool,
       (app_main true true wdt_ok).restarted = false ∧
       (app_main true true wdt_ok).tasks_created = true) ∧
    (app_main true true false).wdt_warning = true := by
  decide

/-- Claim C8: a Generator iteration whose send fails because the channel is
full only logs; it leaves the heartbeat, the flags (in particular
GeneratorOk), the queue and every other piece of shared state unchanged,
and increments the internal counter exactly as the success path does. -/
theorem claim_C8 (s : SysState) (now : Nat)
    (hfull : s.data_queue.items.length = s.data_queue.capacity) :
    task_generator_iteration s now =
      { s with sequential_value := s.sequential_value + 1 } ∧
    (∀ (s' : SysState) (now' : Nat),
       (task_generator_iteration s' now').sequential_value =
         s'.sequential_value + 1) := by
  constructor
  · simp [task_generator_iteration, xQueueSend, hfull]
  · intro s' now'
    simp only [task_generator_iteration, xQueueSend]
    split <;> rfl

/-- Witness for claim C8, at a concrete state whose queue holds 10 items of
a capacity of 10. -/
theorem claim_C8_witness :
    task_generator_iteration
        { initState with
            data_queue := ⟨10, [1, 2, 3, 4, 5, 6, 7, 8, 9, 10]⟩ } 99 =
      { initState with
          data_queue := ⟨10, [1, 2, 3, 4, 5, 6, 7, 8, 9, 10]⟩
          sequential_value := 1 } ∧
    (task_generator_iteration initState 0).sequential_value =
      initState.sequential_value + 1 :=
  ⟨(claim_C8 { initState with
                 data_queue := ⟨10, [1, 2, 3, 4, 5, 6, 7, 8, 9, 10]⟩ }
      99 (by decide)).1,
   (claim_C8 { initState with
                 data_queue := ⟨10, [1, 2, 3, 4, 5, 6, 7, 8, 9, 10]⟩ }
      99 (by decide)).2 initState 0⟩

/-- Claim C5: when the receiver liveness condition fires (no Receiver task
handle, or the heartbeat stale by more than twice the Supervisor period),
the Supervisor cycle terminates any existing handle, creates a fresh
ReceiverTask instance starting at Normal (all counters 0), re-stamps
ReceiverHeartbeat to the current time, clears the warning, recovery and
shutdown flags, and increments the Supervisor-local restart count by one. -/
theorem claim_C5 (s : SysState) (now : Nat)
    (h : receiver_needs_restart s now = true) :
    (task_supervisor_cycle s now).receiver = freshReceiver ∧
    (task_supervisor_cycle s now).receiver.timeout_count = 0 ∧
    (task_supervisor_cycle s now).receiver_heartbeat = now ∧
    (task_supervisor_cycle s now).flags.receiver_warning = false ∧
    (task_supervisor_cycle s now).flags.receiver_recovery = false ∧
    (task_supervisor_cycle s now).flags.receiver_shutdown = false ∧
    (task_supervisor_cycle s now).receiver_restart_count =
      s.receiver_restart_count + 1 ∧
    (task_supervisor_cycle s now).receiver_handle_exists = true := by
  simp only [task_supervisor_cycle, h, if_true]
  split_ifs <;> simp_all [freshReceiver]

/-- Witness for claim C5: at the startup state with a tick count past twice
the Supervisor period, the cycle recreates the Receiver. -/
theorem claim_C5_witness :
    (task_supervisor_cycle initState 6001).receiver = freshReceiver ∧
    (task_supervisor_cycle initState 6001).receiver.timeout_count = 0 ∧
    (task_supervisor_cycle initState 6001).receiver_heartbeat = 6001 ∧
    (task_supervisor_cycle initState 6001).flags.receiver_warning = false ∧
    (task_supervisor_cycle initState 6001).flags.receiver_recovery = false ∧
    (task_supervisor_cycle initState 6001).flags.receiver_shutdown = false ∧
    (task_supervisor_cycle initState 6001).receiver_restart_count =
      initState.receiver_restart_count + 1 ∧
    (task_supervisor_cycle initState 6001).receiver_handle_exists = true :=
  claim_C5 initState 6001 (by decide)

/-- Helper: a generator iteration leaves the receiver-side state alone: it
never touches the receiver flags, the receiver locals, the restart count or
the halted status (src/main.c lines 72-94 only set FLAG_GENERATOR_OK). -/
theorem task_generator_iteration_frame (s : SysState) (now : Nat) :
    (task_generator_iteration s now).receiver = s.receiver ∧
    (task_generator_iteration s now).flags.receiver_ok = s.flags.receiver_ok ∧
    (task_generator_iteration s now).flags.receiver_warning = s.flags.receiver_warning ∧
    (task_generator_iteration s now).flags.receiver_recovery = s.flags.receiver_recovery ∧
    (task_generator_iteration s now).flags.receiver_shutdown = s.flags.receiver_shutdown ∧
    (task_generator_iteration s now).receiver_restart_count = s.receiver_restart_count ∧
    (task_generator_iteration s now).halted = s.halted := by
  simp only [task_generator_iteration]
  split <;> simp

/-- Helper: a receiver iteration never touches FLAG_GENERATOR_OK, the
supervisor's restart count, the task handles or the halted status. -/
theorem task_receiver_iteration_frame (s : SysState) (now : Nat) (o : RecvOutcome) :
    (task_receiver_iteration s now o).flags.generator_ok = s.flags.generator_ok ∧
    (task_receiver_iteration s now o).receiver_restart_count = s.receiver_restart_count ∧
    (task_receiver_iteration s now o).halted = s.halted := by
  cases o with
  | success v => simp [task_receiver_iteration]
  | timeout =>
      simp only [task_receiver_iteration]
      split_ifs <;> simp
  | allocFailure => simp [task_receiver_iteration]

/-- Helper: a supervisor cycle either recreates the receiver, clearing the
warning, recovery and shutdown flags and installing a fresh instance, or it
leaves the flags and the receiver instance untouched. -/
theorem task_supervisor_cycle_cases (s : SysState) (now : Nat) :
    ((task_supervisor_cycle s now).flags.receiver_warning = false ∧
     (task_supervisor_cycle s now).flags.receiver_recovery = false ∧
     (task_supervisor_cycle s now).flags.receiver_shutdown = false ∧
     (task_supervisor_cycle s now).receiver = freshReceiver) ∨
    ((task_supervisor_cycle s now).flags = s.flags ∧
     (task_supervisor_cycle s now).receiver = s.receiver) := by
  simp only [task_supervisor_cycle]
  split_ifs <;> simp_all [freshReceiver]

/-- Helper: the strengthened invariant holds at startup. -/
theorem invC2_init : InvC2 initState := by
  refine ⟨by decide, fun _ => rfl, fun _ => rfl, fun h => absurd h (by decide)⟩

/-- Helper: every step of the system preserves the strengthened invariant. -/
theorem invC2_step (s s' : SysState) (h : InvC2 s) (st : Step s s') :
    InvC2 s' := by
  obtain ⟨hcnt, h3, h5, hge⟩ := h
  cases st with
  | generator now hh =>
      obtain ⟨e1, _, e3, e4, e5, _, _⟩ := task_generator_iteration_frame s now
      refine ⟨?_, ?_, ?_, ?_⟩
      · simp only [wrsCount] at hcnt ⊢; rw [e3, e4, e5]; exact hcnt
      · rw [e1, e4]; exact h3
      · rw [e1, e5]; exact h5
      · rw [e1, e3, e4]; exact hge
  | receiver_success now v rest hh ha hq =>
      refine ⟨?_, ?_, ?_, ?_⟩ <;> simp [task_receiver_iteration, wrsCount]
  | receiver_timeout now hh ha hq =>
      simp only [task_receiver_iteration, MAX_WARNINGS, MAX_RECOVERIES,
                 MAX_SHUTDOWNS]
      split_ifs with h1 h2 h4
      · have hR : s.flags.receiver_recovery = false := h3 (by omega)
        have hS : s.flags.receiver_shutdown = false := h5 (by omega)
        refine ⟨?_, ?_, ?_, ?_⟩
        · simp [wrsCount, hR, hS]
        · simp [hR]
        · simp [hS]
        · intro hc; simp at hc; omega
      · have hS : s.flags.receiver_shutdown = false := h5 (by omega)
        refine ⟨?_, ?_, ?_, ?_⟩
        · simp [wrsCount, hS]
        · intro hc; simp at hc; omega
        · simp [hS]
        · intro hc; simp at hc; omega
      · refine ⟨?_, ?_, ?_, ?_⟩
        · simp [wrsCount]
        · intro hc; simp at hc; omega
        · intro hc; simp at hc; omega
        · simp
      · have hW : s.flags.receiver_warning = false := (hge (by omega)).1
        have hR : s.flags.receiver_recovery = false := (hge (by omega)).2
        refine ⟨?_, ?_, ?_, ?_⟩
        · simp [wrsCount, hW, hR]
        · intro hc; simp at hc; omega
        · intro hc; simp at hc; omega
        · simp [hW, hR]
  | receiver_alloc_failure now hh ha =>
      exact ⟨hcnt, h3, h5, hge⟩
  | supervisor now hh =>
      rcases task_supervisor_cycle_cases s now with
        ⟨e1, e2, e3, e4⟩ | ⟨e1, e2⟩
      · refine ⟨?_, ?_, ?_, ?_⟩
        · simp [wrsCount, e1, e2, e3]
        · intro _; exact e2
        · intro _; exact e3
        · intro _; exact ⟨e1, e2⟩
      · refine ⟨?_, ?_, ?_, ?_⟩
        · simp only [wrsCount, e1] at hcnt ⊢; exact hcnt
        · rw [e1, e2]; exact h3
        · rw [e1, e2]; exact h5
        · rw [e1, e2]; exact hge

/-- Counterexample to claim C2: the reachable state obtained by one
successful send, one successful receive and one receive timeout has both
ReceiverOk and ReceiverWarning asserted, because the timeout branches of
task_data_receiver never clear FLAG_RECEIVER_OK (src/main.c lines 142-146
set FLAG_RECEIVER_WARNING without clearing FLAG_RECEIVER_OK). -/
theorem claim_C2_counterexample :
    Reachable c2_state ∧
    c2_state.flags.receiver_ok = true ∧
    c2_state.flags.receiver_warning = true ∧
    receiverFlagCount c2_state.flags = 2 := by
  refine ⟨?_, by decide, by decide, by decide⟩
  exact Reachable.step
    (Reachable.step
      (Reachable.step Reachable.init (Step.generator initState 0 rfl))
      (Step.receiver_success c2s1 0 1 [] (by decide) (by decide) (by decide)))
    (Step.receiver_timeout c2s2 0 (by decide) (by decide) (by decide))

/-- Claim C2 as amended: in every reachable state at most one of the three
escalation flags ReceiverWarning, ReceiverRecovery, ReceiverShutdown is
asserted; ReceiverOk however may be asserted simultaneously with any of
them, since the timeout path never clears it. -/
theorem claim_C2 (s : SysState) (h : Reachable s) : wrsCount s.flags ≤ 1 := by
  have hi : InvC2 s := by
    induction h with
    | init => exact invC2_init
    | step hr st ih => exact invC2_step _ _ ih st
  exact hi.1

/-- Witness for the amended claim C2, at the startup state. -/
theorem claim_C2_witness : wrsCount initState.flags ≤ 1 :=
  claim_C2 initState Reachable.init

/-- Helper: a supervisor cycle starting from a non-halted state invokes
esp_restart only when its restart count has reached 5. -/
theorem task_supervisor_cycle_halted (s : SysState) (now : Nat)
    (h : s.halted = false) :
    (task_supervisor_cycle s now).halted = true →
      5 ≤ (task_supervisor_cycle s now).receiver_restart_count := by
  simp only [task_supervisor_cycle]
  split_ifs <;> simp_all

/-- Helper: no reachable halted state has a restart count below 5. -/
theorem invC3_reachable (s : SysState) (h : Reachable s) :
    s.halted = true → 5 ≤ s.receiver_restart_count := by
  induction h with
  | init => intro hx; exact absurd hx (by decide)
  | step hr st ih =>
      cases st with
      | generator now hh =>
          obtain ⟨_, _, _, _, _, _, e7⟩ := task_generator_iteration_frame _ now
          intro hx
          rw [e7, hh] at hx
          exact absurd hx (by decide)
      | receiver_success now v rest hh ha hq =>
          obtain ⟨_, _, e3⟩ := task_receiver_iteration_frame _ now (.success v)
          intro hx
          rw [e3, hh] at hx
          exact absurd hx (by decide)
      | receiver_timeout now hh ha hq =>
          obtain ⟨_, _, e3⟩ := task_receiver_iteration_frame _ now .timeout
          intro hx
          rw [e3, hh] at hx
          exact absurd hx (by decide)
      | receiver_alloc_failure now hh ha =>
          intro hx
          simp [task_receiver_iteration, hh] at hx
      | supervisor now hh =>
          exact task_supervisor_cycle_halted _ now hh

/-- Helper: the four-recreation state is reachable. -/
theorem reachable_c3s4 : Reachable c3s4 :=
  Reachable.step
    (Reachable.step
      (Reachable.step
        (Reachable.step Reachable.init (Step.supervisor initState 6001 rfl))
        (Step.supervisor c3s1 12002 (by decide)))
      (Step.supervisor c3s2 18003 (by decide)))
    (Step.supervisor c3s3 24004 (by decide))

/-- Helper: the five-recreation halted state is reachable. -/
theorem reachable_c3s5 : Reachable c3s5 :=
  Reachable.step reachable_c3s4 (Step.supervisor c3s4 30005 (by decide))

/-- Counterexample to claim C3: from a reachable state with four receiver
recreations, the very supervisor cycle that performs the fifth recreation
already triggers the device restart (src/main.c lines 256-261 check the
threshold immediately after incrementing the count in the same cycle), so
the restart is not left to the next supervisor cycle as claimed. -/
theorem claim_C3_counterexample :
    Reachable c3s4 ∧ c3s4.receiver_restart_count = 4 ∧ c3s4.halted = false ∧
    c3s5 = task_supervisor_cycle c3s4 30005 ∧
    c3s5.receiver_restart_count = 5 ∧ c3s5.halted = true :=
  ⟨reachable_c3s4, by decide, by decide, rfl, by decide, by decide⟩

/-- Claim C3 as amended: no device restart happens before the fifth
supervisor-triggered receiver recreation (every reachable halted state has
restart count at least 5), and the supervisor cycle that performs the fifth
recreation itself triggers the full device restart, immediately after
incrementing the count, regardless of the generator's state. -/
theorem claim_C3 :
    (∀ s : SysState, Reachable s → s.halted = true →
       5 ≤ s.receiver_restart_count) ∧
    (∀ (s : SysState) (now : Nat), s.receiver_restart_count = 4 →
       receiver_needs_restart s now = true →
       (task_supervisor_cycle s now).receiver_restart_count = 5 ∧
       (task_supervisor_cycle s now).halted = true) := by
  refine ⟨invC3_reachable, ?_⟩
  intro s now hc hneed
  simp only [task_supervisor_cycle, hneed, if_true, hc]
  norm_num

/-- Witness for the amended claim C3, on the concrete five-recreation
trace. -/
theorem claim_C3_witness :
    5 ≤ c3s5.receiver_restart_count ∧
    (task_supervisor_cycle c3s4 30005).receiver_restart_count = 5 ∧
    (task_supervisor_cycle c3s4 30005).halted = true :=
  ⟨claim_C3.1 c3s5 reachable_c3s5 (by decide),
   claim_C3.2 c3s4 30005 (by decide) (by decide)⟩

/-- Helper: a supervisor cycle increments its restart count exactly when
the receiver liveness condition fires, and never otherwise. -/
theorem task_supervisor_cycle_restart_count (s : SysState) (now : Nat) :
    (task_supervisor_cycle s now).receiver_restart_count =
      if receiver_needs_restart s now = true then s.receiver_restart_count + 1
      else s.receiver_restart_count := by
  simp only [task_supervisor_cycle]
  split_ifs <;> simp_all

/-- Claim C9: the supervisor-local receiver_restart_count starts at 0, no
receiver iteration (in particular no successful receive) and no generator
iteration ever changes it, a supervisor cycle changes it exactly by adding
one when it recreates the receiver, every step changes it by zero or one,
and it is monotone along every execution. -/
theorem claim_C9 :
    initState.receiver_restart_count = 0 ∧
    (∀ (s : SysState) (now : Nat) (o : RecvOutcome),
       (task_receiver_iteration s now o).receiver_restart_count =
         s.receiver_restart_count) ∧
    (∀ (s : SysState) (now : Nat),
       (task_generator_iteration s now).receiver_restart_count =
         s.receiver_restart_count) ∧
    (∀ (s : SysState) (now : Nat),
       (task_supervisor_cycle s now).receiver_restart_count =
         if receiver_needs_restart s now = true then
           s.receiver_restart_count + 1
         else s.receiver_restart_count) ∧
    (∀ s s' : SysState, Step s s' →
       s'.receiver_restart_count = s.receiver_restart_count ∨
       s'.receiver_restart_count = s.receiver_restart_count + 1) ∧
    (∀ s s' : SysState, Relation.ReflTransGen Step s s' →
       s.receiver_restart_count ≤ s'.receiver_restart_count) := by
  have hrecv : ∀ (s : SysState) (now : Nat) (o : RecvOutcome),
      (task_receiver_iteration s now o).receiver_restart_count =
        s.receiver_restart_count :=
    fun s now o => (task_receiver_iteration_frame s now o).2.1
  have hgen : ∀ (s : SysState) (now : Nat),
      (task_generator_iteration s now).receiver_restart_count =
        s.receiver_restart_count :=
    fun s now => (task_generator_iteration_frame s now).2.2.2.2.2.1
  have hstep : ∀ s s' : SysState, Step s s' →
      s'.receiver_restart_count = s.receiver_restart_count ∨
      s'.receiver_restart_count = s.receiver_restart_count + 1 := by
    intro s s' st
    cases st with
    | generator now hh => exact Or.inl (hgen s now)
    | receiver_success now v rest hh ha hq => exact Or.inl (hrecv s now _)
    | receiver_timeout now hh ha hq => exact Or.inl (hrecv s now _)
    | receiver_alloc_failure now hh ha => exact Or.inl (hrecv s now _)
    | supervisor now hh =>
        rw [task_supervisor_cycle_restart_count s now]
        split_ifs
        · exact Or.inr rfl
        · exact Or.inl rfl
  refine ⟨rfl, hrecv, hgen, task_supervisor_cycle_restart_count, hstep, ?_⟩
  intro s s' h
  induction h with
  | refl => exact Nat.le_refl _
  | tail hs hstep2 ih =>
      rcases hstep _ _ hstep2 with he | he
      · omega
      · omega

/-- Witness for claim C9, at the startup state and one generator step. -/
theorem claim_C9_witness :
    initState.receiver_restart_count = 0 ∧
    ((task_generator_iteration initState 0).receiver_restart_count =
       initState.receiver_restart_count ∨
     (task_generator_iteration initState 0).receiver_restart_count =
       initState.receiver_restart_count + 1) ∧
    initState.receiver_restart_count ≤ initState.receiver_restart_count :=
  ⟨claim_C9.1,
   claim_C9.2.2.2.2.1 initState _ (Step.generator initState 0 rfl),
   claim_C9.2.2.2.2.2 initState initState Relation.ReflTransGen.refl⟩

/-- Helper: a generator iteration keeps FLAG_GENERATOR_OK set once it is
set (the success path sets it, the full-queue path leaves flags alone). -/
theorem task_generator_iteration_gok (s : SysState) (now : Nat)
    (h : s.flags.generator_ok = true) :
    (task_generator_iteration s now).flags.generator_ok = true := by
  simp only [task_generator_iteration]
  split <;> simp [h]

/-- Helper: no supervisor cycle ever modifies FLAG_GENERATOR_OK; even when
recreating a stale generator it only re-stamps the heartbeat
(src/main.c lines 265-284 clear no flag). -/
theorem task_supervisor_cycle_gok (s : SysState) (now : Nat) :
    (task_supervisor_cycle s now).flags.generator_ok = s.flags.generator_ok := by
  simp only [task_supervisor_cycle]
  split_ifs <;> simp_all

/-- Claim C10: once FLAG_GENERATOR_OK has been set it stays set forever: no
step of any task clears it, so along every execution the supervisor's
status snapshot keeps reporting the generator as OK from the first
successful send onwards, even across generator recreations. -/
theorem claim_C10 :
    (∀ s s' : SysState, Step s s' → s.flags.generator_ok = true →
       s'.flags.generator_ok = true) ∧
    (∀ s s' : SysState, Relation.ReflTransGen Step s s' →
       s.flags.generator_ok = true →
       supervisor_reports_generator_ok s'.flags = true) := by
  have hstep : ∀ s s' : SysState, Step s s' → s.flags.generator_ok = true →
      s'.flags.generator_ok = true := by
    intro s s' st h
    cases st with
    | generator now hh => exact task_generator_iteration_gok s now h
    | receiver_success now v rest hh ha hq =>
        rw [(task_receiver_iteration_frame s now _).1]; exact h
    | receiver_timeout now hh ha hq =>
        rw [(task_receiver_iteration_frame s now _).1]; exact h
    | receiver_alloc_failure now hh ha =>
        rw [(task_receiver_iteration_frame s now _).1]; exact h
    | supervisor now hh =>
        rw [task_supervisor_cycle_gok s now]; exact h
  refine ⟨hstep, ?_⟩
  intro s s' h hok
  induction h with
  | refl => exact hok
  | tail hs hstep2 ih => exact hstep _ _ hstep2 ih

/-- Witness for claim C10, at the state after the generator's first
successful send. -/
theorem claim_C10_witness :
    c2s1.flags.generator_ok = true ∧
    (task_generator_iteration c2s1 5).flags.generator_ok = true ∧
    supervisor_reports_generator_ok c2s1.flags = true :=
  ⟨by decide,
   claim_C10.1 c2s1 _ (Step.generator c2s1 5 (by decide)) (by decide),
   claim_C10.2 c2s1 c2s1 Relation.ReflTransGen.refl (by decide)⟩

